import Mathlib

/-!
Shallow embedding of the OAuth 2.1 core of `src/server/src/mcp-oauth.ts`.

The PostgreSQL store is modelled as association lists keyed by the
relevant value (client id, code value, token value).  SQL `SELECT ...
WHERE key = $1` becomes a first-match lookup, `DELETE ... WHERE key = $1`
removes every row with that key, and `INSERT` prepends a row.  Time is an
explicit `Nat` parameter standing for the millisecond clock read
(`Date.now()` / `new Date()`); random values (`crypto.randomBytes`) are
explicit parameters; environment variables are `Option String` parameters.
The SHA-256/base64url digest used by PKCE is an abstract parameter
`hash : String → String` standing for
`crypto.createHash('sha256').update(v).digest('base64url')`.
-/

namespace McpOAuth

/-- JavaScript `x || d` on a possibly-undefined string: `undefined` and the
empty string both fall back to the default. -/
def jsOr (x : Option String) (d : String) : String :=
  match x with
  | none => d
  | some s => if s = "" then d else s

/-- JavaScript `x || null` on a possibly-undefined string, as it is applied
to optional SQL parameters at insertion: `undefined` and `""` are stored
as NULL. -/
def jsOrNull (x : Option String) : Option String :=
  match x with
  | none => none
  | some s => if s = "" then none else some s

/-- JavaScript truthiness of a nullable string column. -/
def jsTruthy (x : Option String) : Bool :=
  match x with
  | none => false
  | some s => s ≠ ""

/-- First row whose key matches, as `SELECT * FROM t WHERE key = $1`. -/
def lookupRow {α : Type} (l : List (String × α)) (k : String) : Option α :=
  (l.find? (fun p => p.1 == k)).map Prod.snd

/-- Remove every row with the given key, as `DELETE FROM t WHERE key = $1`. -/
def deleteRow {α : Type} (l : List (String × α)) (k : String) : List (String × α) :=
  l.filter (fun p => p.1 != k)

-- Expiry constants from the source (milliseconds).

def TOKEN_EXPIRY_MS : Nat := 60 * 60 * 1000

def REFRESH_TOKEN_EXPIRY_MS : Nat := 30 * 24 * 60 * 60 * 1000

def AUTH_CODE_EXPIRY_MS : Nat := 10 * 60 * 1000

-- Data model.

structure RegisteredClient where
  client_id : String
  client_secret : String
  client_name : Option String
  redirect_uris : List String
  grant_types : List String
  response_types : List String
  token_endpoint_auth_method : String
  created_at : Nat
deriving DecidableEq, Repr

structure AuthCodeRow where
  clientId : String
  redirectUri : String
  codeChallenge : Option String
  codeChallengeMethod : Option String
  expiresAt : Nat
  scope : Option String
  resource : Option String
deriving DecidableEq, Repr

/-- A row of `mcp_access_tokens` or `mcp_refresh_tokens`; `link` is the
`refresh_token` column for access rows and the `access_token` column for
refresh rows. -/
structure TokenRow where
  clientId : String
  expiresAt : Nat
  scope : Option String
  resource : Option String
  link : Option String
deriving DecidableEq, Repr

/-- The four persisted tables. -/
structure Store where
  clients : List RegisteredClient
  authCodes : List (String × AuthCodeRow)
  accessTokens : List (String × TokenRow)
  refreshTokens : List (String × TokenRow)
deriving DecidableEq, Repr

-- Default / fallback client.

/-- `getOAuthCredentials`: id and secret from the environment, with the
hard-coded fallbacks. -/
def getOAuthCredentials (envClientId envClientSecret : Option String) :
    String × String :=
  (jsOr envClientId "chatgpt-mcp-client",
   jsOr envClientSecret "chatgpt-mcp-secret-key-2024")

-- Dynamic client registration.

structure ClientRegistrationRequest where
  client_name : Option String
  redirect_uris : Option (List String)
  grant_types : Option (List String)
  response_types : Option (List String)
  token_endpoint_auth_method : Option String
  scope : Option String
deriving DecidableEq, Repr

structure ClientRegistrationResponse where
  client_id : String
  client_secret : String
  client_name : Option String
  redirect_uris : List String
  grant_types : List String
  response_types : List String
  token_endpoint_auth_method : String
  client_id_issued_at : Nat
  client_secret_expires_at : Nat
deriving DecidableEq, Repr

/-- `registerClient`: the freshly generated id/secret and the row creation
time (ms) are explicit parameters.  Note: JavaScript `request.x || default`
on an *array* falls back only on `undefined` (an empty array is truthy),
while on a *string* it also falls back on `""`. -/
def registerClient (generatedId generatedSecret : String) (createdAt : Nat)
    (request : ClientRegistrationRequest) (s : Store) :
    ClientRegistrationResponse × Store :=
  let clientName := jsOr request.client_name "Dynamic Client"
  let redirectUris :=
    request.redirect_uris.getD ["https://chatgpt.com/aip/g-*/oauth/callback"]
  let grantTypes := request.grant_types.getD ["authorization_code"]
  let responseTypes := request.response_types.getD ["code"]
  let tokenEndpointAuthMethod :=
    jsOr request.token_endpoint_auth_method "client_secret_post"
  let row : RegisteredClient :=
    { client_id := generatedId
      client_secret := generatedSecret
      client_name := some clientName
      redirect_uris := redirectUris
      grant_types := grantTypes
      response_types := responseTypes
      token_endpoint_auth_method := tokenEndpointAuthMethod
      created_at := createdAt }
  ({ client_id := generatedId
     client_secret := generatedSecret
     client_name := some clientName
     redirect_uris := redirectUris
     grant_types := grantTypes
     response_types := responseTypes
     token_endpoint_auth_method := tokenEndpointAuthMethod
     client_id_issued_at := createdAt / 1000
     client_secret_expires_at := 0 },
   { s with clients := row :: s.clients })

/-- `getClient`: first registered row with the given id. -/
def getClient (s : Store) (clientId : String) : Option RegisteredClient :=
  (s.clients.find? (fun c => c.client_id == clientId))

/-- `validateClientCredentials`: if a registered row with the id exists its
secret must match; only otherwise does the env-based fallback apply. -/
def validateClientCredentials (envClientId envClientSecret : Option String)
    (s : Store) (clientId clientSecret : String) : Bool :=
  match getClient s clientId with
  | some client => client.client_secret == clientSecret
  | none =>
    let creds := getOAuthCredentials envClientId envClientSecret
    clientId == creds.1 && clientSecret == creds.2

/-- `validateClientId`. -/
def validateClientId (envClientId : Option String) (s : Store)
    (clientId : String) : Bool :=
  match getClient s clientId with
  | some _ => true
  | none => clientId == jsOr envClientId "chatgpt-mcp-client"

-- Authorization codes.

/-- `generateAuthorizationCode`: the random code value and the clock read
are explicit parameters; optional SQL parameters pass through `x || null`. -/
def generateAuthorizationCode (now : Nat) (code : String)
    (clientId redirectUri : String)
    (codeChallenge codeChallengeMethod scope resource : Option String)
    (s : Store) : String × Store :=
  (code,
   { s with authCodes :=
      (code,
       { clientId := clientId
         redirectUri := redirectUri
         codeChallenge := jsOrNull codeChallenge
         codeChallengeMethod := jsOrNull codeChallengeMethod
         expiresAt := now + AUTH_CODE_EXPIRY_MS
         scope := jsOrNull scope
         resource := jsOrNull resource }) :: s.authCodes })

/-- Result shape of `validateAuthorizationCode`. -/
structure ValidateCodeResult where
  valid : Bool
  error : Option String
  scope : Option String
  resource : Option String
deriving DecidableEq, Repr

/-- The PKCE gate of `validateAuthorizationCode`: active iff the stored
challenge is truthy and the method is exactly `S256`. -/
def pkceActive (row : AuthCodeRow) : Bool :=
  jsTruthy row.codeChallenge && row.codeChallengeMethod == some "S256"

/-- `validateAuthorizationCode`: look up, check expiry (deleting when past),
check client and redirect URI, check PKCE, and on success consume the code.
The source's `if (!codeVerifier)` is a JavaScript falsy check: a missing
verifier and an empty-string verifier both fail with
`Code verifier required` before any hashing. -/
def validateAuthorizationCode (hash : String → String) (now : Nat)
    (s : Store) (code clientId redirectUri : String)
    (codeVerifier : Option String) : ValidateCodeResult × Store :=
  match lookupRow s.authCodes code with
  | none =>
    ({ valid := false, error := some "Invalid authorization code",
       scope := none, resource := none }, s)
  | some authCode =>
    if now > authCode.expiresAt then
      ({ valid := false, error := some "Authorization code expired",
         scope := none, resource := none },
       { s with authCodes := deleteRow s.authCodes code })
    else if authCode.clientId ≠ clientId then
      ({ valid := false, error := some "Client ID mismatch",
         scope := none, resource := none }, s)
    else if authCode.redirectUri ≠ redirectUri then
      ({ valid := false, error := some "Redirect URI mismatch",
         scope := none, resource := none }, s)
    else if pkceActive authCode then
      match codeVerifier with
      | none =>
        ({ valid := false, error := some "Code verifier required",
           scope := none, resource := none }, s)
      | some v =>
        if v = "" then
          ({ valid := false, error := some "Code verifier required",
             scope := none, resource := none }, s)
        else if hash v ≠ authCode.codeChallenge.getD "" then
          ({ valid := false, error := some "Invalid code verifier",
             scope := none, resource := none }, s)
        else
          ({ valid := true, error := none,
             scope := authCode.scope, resource := authCode.resource },
           { s with authCodes := deleteRow s.authCodes code })
    else
      ({ valid := true, error := none,
         scope := authCode.scope, resource := authCode.resource },
       { s with authCodes := deleteRow s.authCodes code })

-- Token pairs.

/-- `cleanupExpiredTokens`: delete every access-token, refresh-token and
auth-code row whose expiry is strictly before `now`. -/
def cleanupExpiredTokens (now : Nat) (s : Store) : Store :=
  { s with
    accessTokens := s.accessTokens.filter (fun p => !(p.2.expiresAt < now))
    refreshTokens := s.refreshTokens.filter (fun p => !(p.2.expiresAt < now))
    authCodes := s.authCodes.filter (fun p => !(p.2.expiresAt < now)) }

/-- `generateTokenPair`: insert the linked access and refresh rows, then run
the opportunistic expiry sweep. -/
def generateTokenPair (now : Nat) (accessToken refreshToken : String)
    (clientId : String) (scope resource : Option String) (s : Store) :
    (String × String) × Store :=
  let s1 : Store :=
    { s with accessTokens :=
        (accessToken,
         { clientId := clientId
           expiresAt := now + TOKEN_EXPIRY_MS
           scope := jsOrNull scope
           resource := jsOrNull resource
           link := some refreshToken }) :: s.accessTokens }
  let s2 : Store :=
    { s1 with refreshTokens :=
        (refreshToken,
         { clientId := clientId
           expiresAt := now + REFRESH_TOKEN_EXPIRY_MS
           scope := jsOrNull scope
           resource := jsOrNull resource
           link := some accessToken }) :: s1.refreshTokens }
  ((accessToken, refreshToken), cleanupExpiredTokens now s2)

/-- `validateAccessToken`: true iff a row exists and is not past expiry;
an expired row is deleted lazily. -/
def validateAccessToken (now : Nat) (s : Store) (token : String) :
    Bool × Store :=
  match lookupRow s.accessTokens token with
  | none => (false, s)
  | some row =>
    if now > row.expiresAt then
      (false, { s with accessTokens := deleteRow s.accessTokens token })
    else
      (true, s)

/-- Result shape of `validateRefreshToken`. -/
structure ValidateRefreshResult where
  valid : Bool
  clientId : Option String
  scope : Option String
  resource : Option String
  error : Option String
deriving DecidableEq, Repr

/-- `validateRefreshToken`. -/
def validateRefreshToken (now : Nat) (s : Store) (token : String) :
    ValidateRefreshResult × Store :=
  match lookupRow s.refreshTokens token with
  | none =>
    ({ valid := false, clientId := none, scope := none, resource := none,
       error := some "Invalid refresh token" }, s)
  | some row =>
    if now > row.expiresAt then
      ({ valid := false, clientId := none, scope := none, resource := none,
         error := some "Refresh token expired" },
       { s with refreshTokens := deleteRow s.refreshTokens token })
    else
      ({ valid := true, clientId := some row.clientId, scope := row.scope,
         resource := row.resource, error := none }, s)

/-- `revokeRefreshToken`: delete the linked access token when the refresh
row exists and its `access_token` column is truthy, then delete the refresh
row itself. -/
def revokeRefreshToken (s : Store) (token : String) : Store :=
  let s1 : Store :=
    match lookupRow s.refreshTokens token with
    | some row =>
      if jsTruthy row.link then
        { s with accessTokens := deleteRow s.accessTokens (row.link.getD "") }
      else s
    | none => s
  { s1 with refreshTokens := deleteRow s1.refreshTokens token }

-- Utilities.

/-- `extractBearerToken`: null for a missing or falsy header and for a
header not starting with `Bearer `; otherwise the suffix after the first
seven characters.  Strings are handled through their character lists. -/
def extractBearerToken (authHeader : Option String) : Option String :=
  match authHeader with
  | none => none
  | some h =>
    if h = "" then none
    else if "Bearer ".data.isPrefixOf h.data then
      some (String.mk (h.data.drop 7))
    else none

/-- The verifier check of `validateAuthorizationCode`, as a predicate on a
stored row and a supplied verifier: vacuously true when the PKCE gate is
inactive, otherwise requires a truthy (non-empty) verifier whose hash
equals the stored challenge — an absent or empty verifier is rejected by
the source's falsy check before hashing. -/
def pkcePasses (hash : String → String) (row : AuthCodeRow)
    (codeVerifier : Option String) : Bool :=
  if pkceActive row then
    match codeVerifier with
    | none => false
    | some v =>
      if v = "" then false else hash v == row.codeChallenge.getD ""
  else true

-- Storage-failure model: each exported operation wraps its body in a
-- try/catch.  `dbFail = true` stands for a query inside the body throwing a
-- storage error; the wrapper below reproduces the operation's catch block.

/-- Outcome of an operation whose body may throw a storage error. -/
inductive DBResult (α : Type) where
  | ok (val : α)
  | thrown
deriving DecidableEq, Repr

/-- `registerClient` logs and re-throws storage errors. -/
def registerClientDB (dbFail : Bool) (generatedId generatedSecret : String)
    (createdAt : Nat) (request : ClientRegistrationRequest) (s : Store) :
    DBResult (ClientRegistrationResponse × Store) :=
  if dbFail then .thrown
  else .ok (registerClient generatedId generatedSecret createdAt request s)

/-- `getClient` logs and re-throws storage errors. -/
def getClientDB (dbFail : Bool) (s : Store) (clientId : String) :
    DBResult (Option RegisteredClient) :=
  if dbFail then .thrown else .ok (getClient s clientId)

/-- `generateAuthorizationCode` logs and re-throws storage errors. -/
def generateAuthorizationCodeDB (dbFail : Bool) (now : Nat) (code : String)
    (clientId redirectUri : String)
    (codeChallenge codeChallengeMethod scope resource : Option String)
    (s : Store) : DBResult (String × Store) :=
  if dbFail then .thrown
  else .ok (generateAuthorizationCode now code clientId redirectUri
    codeChallenge codeChallengeMethod scope resource s)

/-- `validateAuthorizationCode` logs and re-throws storage errors. -/
def validateAuthorizationCodeDB (dbFail : Bool) (hash : String → String)
    (now : Nat) (s : Store) (code clientId redirectUri : String)
    (codeVerifier : Option String) : DBResult (ValidateCodeResult × Store) :=
  if dbFail then .thrown
  else .ok (validateAuthorizationCode hash now s code clientId redirectUri
    codeVerifier)

/-- `generateTokenPair` logs and re-throws its own storage errors, but its
opportunistic sweep (`cleanupExpiredTokens`) has its own catch block: a
sweep failure (`cleanupFail = true`) leaves the store unswept and does not
fail the mint. -/
def generateTokenPairDB (dbFail cleanupFail : Bool) (now : Nat)
    (accessToken refreshToken : String) (clientId : String)
    (scope resource : Option String) (s : Store) :
    DBResult ((String × String) × Store) :=
  if dbFail then .thrown
  else
    let s1 : Store :=
      { s with accessTokens :=
          (accessToken,
           { clientId := clientId
             expiresAt := now + TOKEN_EXPIRY_MS
             scope := jsOrNull scope
             resource := jsOrNull resource
             link := some refreshToken }) :: s.accessTokens }
    let s2 : Store :=
      { s1 with refreshTokens :=
          (refreshToken,
           { clientId := clientId
             expiresAt := now + REFRESH_TOKEN_EXPIRY_MS
             scope := jsOrNull scope
             resource := jsOrNull resource
             link := some accessToken }) :: s1.refreshTokens }
    .ok ((accessToken, refreshToken),
         if cleanupFail then s2 else cleanupExpiredTokens now s2)

/-- `validateAccessToken` catches storage errors and returns `false`. -/
def validateAccessTokenDB (dbFail : Bool) (now : Nat) (s : Store)
    (token : String) : DBResult (Bool × Store) :=
  if dbFail then .ok (false, s)
  else .ok (validateAccessToken now s token)

/-- `validateRefreshToken` catches storage errors and returns an invalid
result carrying the message `Database error`. -/
def validateRefreshTokenDB (dbFail : Bool) (now : Nat) (s : Store)
    (token : String) : DBResult (ValidateRefreshResult × Store) :=
  if dbFail then
    .ok ({ valid := false, clientId := none, scope := none, resource := none,
           error := some "Database error" }, s)
  else .ok (validateRefreshToken now s token)

/-- `revokeRefreshToken` logs and re-throws storage errors. -/
def revokeRefreshTokenDB (dbFail : Bool) (s : Store) (token : String) :
    DBResult Store :=
  if dbFail then .thrown else .ok (revokeRefreshToken s token)

/-- `cleanupExpiredTokens` logs and suppresses storage errors: a failed
sweep leaves the store as it was and reports success. -/
def cleanupExpiredTokensDB (dbFail : Bool) (now : Nat) (s : Store) :
    DBResult Store :=
  if dbFail then .ok s else .ok (cleanupExpiredTokens now s)

/-- The empty store. -/
def emptyStore : Store :=
  { clients := [], authCodes := [], accessTokens := [], refreshTokens := [] }

/-- A store whose only registered client reuses the fallback client id with
a different secret. -/
def rotatedFallbackStore : Store :=
  { clients := [{ client_id := "chatgpt-mcp-client",
                  client_secret := "rotated-secret",
                  client_name := some "Default MCP Client",
                  redirect_uris := ["https://chatgpt.com/aip/g-*/oauth/callback"],
                  grant_types := ["authorization_code"],
                  response_types := ["code"],
                  token_endpoint_auth_method := "client_secret_post",
                  created_at := 0 }],
    authCodes := [], accessTokens := [], refreshTokens := [] }

/-- A store holding one authorization code with absolute expiry 1000 and no
PKCE challenge. -/
def boundaryStore : Store :=
  { clients := [],
    authCodes := [("codeT",
      { clientId := "client1", redirectUri := "https://cb.example",
        codeChallenge := none, codeChallengeMethod := none,
        expiresAt := 1000, scope := none, resource := none })],
    accessTokens := [], refreshTokens := [] }

/-- A store holding one authorization code carrying an `S256` challenge. -/
def pkceStore : Store :=
  { clients := [],
    authCodes := [("codeP",
      { clientId := "client1", redirectUri := "https://cb.example",
        codeChallenge := some "ver#", codeChallengeMethod := some "S256",
        expiresAt := 1000, scope := some "read", resource := none })],
    accessTokens := [], refreshTokens := [] }

/-- A store holding one authorization code whose stored `S256` challenge
equals the stand-in digest of the empty string (`(fun v => v ++ "#") ""`). -/
def pkceEmptyStore : Store :=
  { clients := [],
    authCodes := [("codeE",
      { clientId := "client1", redirectUri := "https://cb.example",
        codeChallenge := some "#", codeChallengeMethod := some "S256",
        expiresAt := 1000, scope := none, resource := none })],
    accessTokens := [], refreshTokens := [] }

/-- A store holding one expired and one live authorization code. -/
def sweepStore : Store :=
  { clients := [],
    authCodes :=
      [("codeOld",
        { clientId := "client1", redirectUri := "https://cb.example",
          codeChallenge := none, codeChallengeMethod := none,
          expiresAt := 999, scope := none, resource := none }),
       ("codeNew",
        { clientId := "client1", redirectUri := "https://cb.example",
          codeChallenge := none, codeChallengeMethod := none,
          expiresAt := 4600000, scope := none, resource := none })],
    accessTokens := [], refreshTokens := [] }

-- Helper lemmas about the store primitives.

theorem lookupRow_cons_self {α : Type} (k : String) (v : α)
    (l : List (String × α)) : lookupRow ((k, v) :: l) k = some v := by
  simp [lookupRow, List.find?_cons_of_pos]

theorem lookupRow_deleteRow_self {α : Type} (l : List (String × α))
    (k : String) : lookupRow (deleteRow l k) k = none := by
  simp only [lookupRow, Option.map_eq_none']
  rw [List.find?_eq_none]
  intro x hx
  have hmem := List.of_mem_filter hx
  simp only [bne_iff_ne, ne_eq, decide_eq_true_eq] at hmem
  simp [hmem]

theorem String.mk_data_eq (s : String) : String.mk s.data = s := rfl

theorem lookupRow_cons_ne {α : Type} (k k' : String) (v : α)
    (l : List (String × α)) (h : (k' == k) = false) :
    lookupRow ((k', v) :: l) k = lookupRow l k := by
  simp only [lookupRow]
  rw [List.find?_cons_of_neg]
  simp [h]

theorem lookupRow_filter {α : Type} (l : List (String × α)) (k : String)
    (row : α) (q : String × α → Bool)
    (hl : lookupRow l k = some row) (hq : q (k, row) = true) :
    lookupRow (l.filter q) k = some row := by
  induction l with
  | nil => simp [lookupRow] at hl
  | cons x xs ih =>
    rcases x with ⟨k', v⟩
    by_cases hk : (k' == k) = true
    · have hkk : k' = k := by simpa using hk
      subst hkk
      have hv : v = row := by
        rw [lookupRow_cons_self] at hl
        exact Option.some.inj hl
      subst hv
      rw [List.filter_cons, if_pos hq]
      exact lookupRow_cons_self _ _ _
    · rw [Bool.not_eq_true] at hk
      have hl' : lookupRow xs k = some row := by
        rw [lookupRow_cons_ne _ _ _ _ hk] at hl
        exact hl
      rw [List.filter_cons]
      by_cases hq2 : q (k', v) = true
      · rw [if_pos hq2, lookupRow_cons_ne _ _ _ _ hk]
        exact ih hl'
      · rw [if_neg hq2]
        exact ih hl'

theorem validateAccessToken_absent (now : Nat) (s : Store) (token : String)
    (h : lookupRow s.accessTokens token = none) :
    validateAccessToken now s token = (false, s) := by
  simp [validateAccessToken, h]

theorem validateRefreshToken_absent (now : Nat) (s : Store)
    (token : String) (h : lookupRow s.refreshTokens token = none) :
    validateRefreshToken now s token =
      ({ valid := false, clientId := none, scope := none, resource := none,
         error := some "Invalid refresh token" }, s) := by
  simp [validateRefreshToken, h]

-- Shared lemmas about `validateAuthorizationCode`.

theorem validateAuthCode_absent (hash : String → String) (now : Nat)
    (s : Store) (code clientId redirectUri : String)
    (codeVerifier : Option String)
    (h : lookupRow s.authCodes code = none) :
    validateAuthorizationCode hash now s code clientId redirectUri
        codeVerifier =
      ({ valid := false, error := some "Invalid authorization code",
         scope := none, resource := none }, s) := by
  simp [validateAuthorizationCode, h]

theorem validateAuthCode_success (hash : String → String) (now : Nat)
    (s : Store) (code clientId redirectUri : String)
    (codeVerifier : Option String) (row : AuthCodeRow)
    (hlook : lookupRow s.authCodes code = some row)
    (hexp : ¬ now > row.expiresAt)
    (hcid : row.clientId = clientId)
    (huri : row.redirectUri = redirectUri)
    (hpk : pkcePasses hash row codeVerifier = true) :
    validateAuthorizationCode hash now s code clientId redirectUri
        codeVerifier =
      ({ valid := true, error := none,
         scope := row.scope, resource := row.resource },
       { s with authCodes := deleteRow s.authCodes code }) := by
  unfold validateAuthorizationCode
  simp only [hlook]
  rw [if_neg hexp]
  rw [if_neg (show ¬ row.clientId ≠ clientId from by simp [hcid])]
  rw [if_neg (show ¬ row.redirectUri ≠ redirectUri from by simp [huri])]
  unfold pkcePasses at hpk
  by_cases hact : pkceActive row = true
  · rw [if_pos hact]
    rw [if_pos hact] at hpk
    cases codeVerifier with
    | none => exact absurd hpk (by simp)
    | some v =>
      by_cases hve : v = ""
      · subst hve
        simp at hpk
      · have hv : hash v = row.codeChallenge.getD "" := by
          simpa [hve] using hpk
        simp [hve, hv]
  · simp only [Bool.not_eq_true] at hact
    simp [hact]

theorem validateAuthCode_expired (hash : String → String) (now : Nat)
    (s : Store) (code clientId redirectUri : String)
    (codeVerifier : Option String) (row : AuthCodeRow)
    (hlook : lookupRow s.authCodes code = some row)
    (hexp : now > row.expiresAt) :
    validateAuthorizationCode hash now s code clientId redirectUri
        codeVerifier =
      ({ valid := false, error := some "Authorization code expired",
         scope := none, resource := none },
       { s with authCodes := deleteRow s.authCodes code }) := by
  unfold validateAuthorizationCode
  simp only [hlook]
  rw [if_pos hexp]

theorem validateAuthCode_client_mismatch (hash : String → String)
    (now : Nat) (s : Store) (code clientId redirectUri : String)
    (codeVerifier : Option String) (row : AuthCodeRow)
    (hlook : lookupRow s.authCodes code = some row)
    (hexp : ¬ now > row.expiresAt)
    (hcid : row.clientId ≠ clientId) :
    validateAuthorizationCode hash now s code clientId redirectUri
        codeVerifier =
      ({ valid := false, error := some "Client ID mismatch",
         scope := none, resource := none }, s) := by
  unfold validateAuthorizationCode
  simp only [hlook]
  rw [if_neg hexp, if_pos hcid]

theorem validateAuthCode_redirect_mismatch (hash : String → String)
    (now : Nat) (s : Store) (code clientId redirectUri : String)
    (codeVerifier : Option String) (row : AuthCodeRow)
    (hlook : lookupRow s.authCodes code = some row)
    (hexp : ¬ now > row.expiresAt)
    (hcid : row.clientId = clientId)
    (huri : row.redirectUri ≠ redirectUri) :
    validateAuthorizationCode hash now s code clientId redirectUri
        codeVerifier =
      ({ valid := false, error := some "Redirect URI mismatch",
         scope := none, resource := none }, s) := by
  unfold validateAuthorizationCode
  simp only [hlook]
  rw [if_neg hexp,
    if_neg (show ¬ row.clientId ≠ clientId from by simp [hcid]),
    if_pos huri]

theorem validateAuthCode_verifier_required (hash : String → String)
    (now : Nat) (s : Store) (code clientId redirectUri : String)
    (codeVerifier : Option String) (row : AuthCodeRow)
    (hlook : lookupRow s.authCodes code = some row)
    (hexp : ¬ now > row.expiresAt)
    (hcid : row.clientId = clientId)
    (huri : row.redirectUri = redirectUri)
    (hact : pkceActive row = true)
    (hver : jsTruthy codeVerifier = false) :
    validateAuthorizationCode hash now s code clientId redirectUri
        codeVerifier =
      ({ valid := false, error := some "Code verifier required",
         scope := none, resource := none }, s) := by
  unfold validateAuthorizationCode
  simp only [hlook]
  rw [if_neg hexp,
    if_neg (show ¬ row.clientId ≠ clientId from by simp [hcid]),
    if_neg (show ¬ row.redirectUri ≠ redirectUri from by simp [huri]),
    if_pos hact]
  cases codeVerifier with
  | none => rfl
  | some v =>
    have hve : v = "" := by
      by_contra hne
      simp [jsTruthy, hne] at hver
    simp [hve]

theorem validateAuthCode_pkce_mismatch (hash : String → String)
    (now : Nat) (s : Store) (code clientId redirectUri v : String)
    (row : AuthCodeRow)
    (hlook : lookupRow s.authCodes code = some row)
    (hexp : ¬ now > row.expiresAt)
    (hcid : row.clientId = clientId)
    (huri : row.redirectUri = redirectUri)
    (hact : pkceActive row = true)
    (hve : v ≠ "")
    (hv : hash v ≠ row.codeChallenge.getD "") :
    validateAuthorizationCode hash now s code clientId redirectUri
        (some v) =
      ({ valid := false, error := some "Invalid code verifier",
         scope := none, resource := none }, s) := by
  unfold validateAuthorizationCode
  simp only [hlook]
  rw [if_neg hexp,
    if_neg (show ¬ row.clientId ≠ clientId from by simp [hcid]),
    if_neg (show ¬ row.redirectUri ≠ redirectUri from by simp [huri]),
    if_pos hact]
  simp [hve, hv]

/-- C1: authorization codes are single-use: after issuance, a first
redemption with the correct client, redirect URI and a PKCE-passing
verifier before expiry succeeds and deletes the code, and a second
identical redemption fails with `Invalid authorization code`, exactly as a
code that never existed. -/
theorem authorization_code_single_use
    (hash : String → String) (now nowR : Nat) (s s1 s2 s3 : Store)
    (code clientId redirectUri : String)
    (codeChallenge codeChallengeMethod scope resource
      codeVerifier : Option String)
    (r1 r2 : ValidateCodeResult)
    (hbefore : nowR < now + AUTH_CODE_EXPIRY_MS)
    (hs1 : (generateAuthorizationCode now code clientId redirectUri
      codeChallenge codeChallengeMethod scope resource s).2 = s1)
    (hpkce : ∀ row, lookupRow s1.authCodes code = some row →
      pkcePasses hash row codeVerifier = true)
    (hr1 : validateAuthorizationCode hash nowR s1 code clientId redirectUri
      codeVerifier = (r1, s2))
    (hr2 : validateAuthorizationCode hash nowR s2 code clientId redirectUri
      codeVerifier = (r2, s3)) :
    r1.valid = true ∧ lookupRow s2.authCodes code = none ∧
    r2.valid = false ∧ r2.error = some "Invalid authorization code" := by
  subst hs1
  have hlook : lookupRow (generateAuthorizationCode now code clientId
      redirectUri codeChallenge codeChallengeMethod scope resource
      s).2.authCodes code = some
      { clientId := clientId, redirectUri := redirectUri,
        codeChallenge := jsOrNull codeChallenge,
        codeChallengeMethod := jsOrNull codeChallengeMethod,
        expiresAt := now + AUTH_CODE_EXPIRY_MS,
        scope := jsOrNull scope, resource := jsOrNull resource } :=
    lookupRow_cons_self _ _ _
  have hexp : ¬ nowR > now + AUTH_CODE_EXPIRY_MS := by omega
  have hsucc := validateAuthCode_success hash nowR _ code clientId
    redirectUri codeVerifier _ hlook hexp rfl rfl (hpkce _ hlook)
  rw [hsucc, Prod.mk.injEq] at hr1
  obtain ⟨hres, hst⟩ := hr1
  subst hres
  subst hst
  have hnone : lookupRow ({ (generateAuthorizationCode now code clientId
      redirectUri codeChallenge codeChallengeMethod scope resource s).2 with
      authCodes := deleteRow (generateAuthorizationCode now code clientId
        redirectUri codeChallenge codeChallengeMethod scope resource
        s).2.authCodes code } : Store).authCodes code = none :=
    lookupRow_deleteRow_self _ _
  have habs := validateAuthCode_absent hash nowR _ code clientId redirectUri
    codeVerifier hnone
  rw [habs, Prod.mk.injEq] at hr2
  obtain ⟨hres2, _⟩ := hr2
  subst hres2
  exact ⟨rfl, hnone, rfl, rfl⟩

/-- Witness for C1: a concrete issuance and double redemption with a PKCE
challenge, using a concrete stand-in digest function. -/
theorem authorization_code_single_use_witness :
    (validateAuthorizationCode (fun v => v ++ "#") 1
        (generateAuthorizationCode 0 "codeA" "client1" "https://cb.example"
          (some "ver#") (some "S256") (some "read") none emptyStore).2
        "codeA" "client1" "https://cb.example" (some "ver")).1.valid = true ∧
    lookupRow (validateAuthorizationCode (fun v => v ++ "#") 1
        (generateAuthorizationCode 0 "codeA" "client1" "https://cb.example"
          (some "ver#") (some "S256") (some "read") none emptyStore).2
        "codeA" "client1" "https://cb.example"
        (some "ver")).2.authCodes "codeA" = none ∧
    (validateAuthorizationCode (fun v => v ++ "#") 1
        (validateAuthorizationCode (fun v => v ++ "#") 1
          (generateAuthorizationCode 0 "codeA" "client1"
            "https://cb.example" (some "ver#") (some "S256") (some "read")
            none emptyStore).2
          "codeA" "client1" "https://cb.example" (some "ver")).2
        "codeA" "client1" "https://cb.example"
        (some "ver")).1.valid = false ∧
    (validateAuthorizationCode (fun v => v ++ "#") 1
        (validateAuthorizationCode (fun v => v ++ "#") 1
          (generateAuthorizationCode 0 "codeA" "client1"
            "https://cb.example" (some "ver#") (some "S256") (some "read")
            none emptyStore).2
          "codeA" "client1" "https://cb.example" (some "ver")).2
        "codeA" "client1" "https://cb.example"
        (some "ver")).1.error = some "Invalid authorization code" :=
  authorization_code_single_use (fun v => v ++ "#") 0 1
    emptyStore _ _ _ "codeA" "client1" "https://cb.example"
    (some "ver#") (some "S256") (some "read") none (some "ver")
    _ _ (by decide) rfl
    (by
      intro row hrow
      have hrow2 := (lookupRow_cons_self "codeA"
        ({ clientId := "client1", redirectUri := "https://cb.example",
           codeChallenge := some "ver#", codeChallengeMethod := some "S256",
           expiresAt := 0 + AUTH_CODE_EXPIRY_MS, scope := some "read",
           resource := none } : AuthCodeRow) []).symm.trans hrow
      have hrow3 :
          ({ clientId := "client1", redirectUri := "https://cb.example",
             codeChallenge := some "ver#",
             codeChallengeMethod := some "S256",
             expiresAt := 0 + AUTH_CODE_EXPIRY_MS, scope := some "read",
             resource := none } : AuthCodeRow) = row :=
        Option.some.inj hrow2
      rw [← hrow3]
      decide)
    rfl rfl

/-- C10: `extractBearerToken` is a total pure function: it returns `none`
for a missing header and for every header that is not of the form
`"Bearer " ++ s`, and it returns exactly `some s` for the header
`"Bearer " ++ s`, including `some ""` for the header `"Bearer "` itself. -/
theorem extractBearerToken_spec :
    extractBearerToken none = none ∧
    (∀ h : String, (¬ ∃ s, h = "Bearer " ++ s) →
      extractBearerToken (some h) = none) ∧
    (∀ s : String, extractBearerToken (some ("Bearer " ++ s)) = some s) := by
  refine ⟨rfl, ?_, ?_⟩
  · intro h hns
    by_cases hempty : h = ""
    · simp [extractBearerToken, hempty]
    · have hpre : "Bearer ".data.isPrefixOf h.data = false := by
        by_contra hc
        rw [Bool.not_eq_false, List.isPrefixOf_iff_prefix] at hc
        obtain ⟨t, ht⟩ := hc
        exact hns ⟨String.mk t, by
          apply String.ext
          rw [String.data_append, ht]⟩
      simp [extractBearerToken, hempty, hpre]
  · intro s
    have hempty : ("Bearer " ++ s) ≠ "" := by
      intro hc
      have := congrArg String.data hc
      rw [String.data_append] at this
      simp at this
    have hpre : "Bearer ".data.isPrefixOf ("Bearer " ++ s).data = true := by
      rw [String.data_append, List.isPrefixOf_iff_prefix]
      exact List.prefix_append _ _
    have hdrop : ("Bearer " ++ s).data.drop 7 = s.data := by
      rw [String.data_append]
      exact List.drop_left' (by decide)
    simp [extractBearerToken, hempty, hpre, hdrop, String.mk_data_eq]

/-- Witness for C10 at concrete headers. -/
theorem extractBearerToken_spec_witness :
    extractBearerToken (some "Basic abc") = none ∧
    extractBearerToken (some "Bearer tok123") = some "tok123" ∧
    extractBearerToken (some "Bearer ") = some "" := by
  refine ⟨?_, ?_, ?_⟩
  · apply extractBearerToken_spec.2.1
    rintro ⟨s, hs⟩
    have h2 := congrArg String.data hs
    rw [String.data_append] at h2
    have h3 : "Basic abc".data.take 7 = "Bearer ".data := by
      rw [h2]
      exact List.take_left' (by decide)
    exact absurd h3 (by decide)
  · have := extractBearerToken_spec.2.2 "tok123"
    simpa using this
  · have := extractBearerToken_spec.2.2 ""
    simpa using this

/-- C2 counterexample: the claim says redemption succeeds exactly when the
digest of the supplied verifier equals the stored challenge, but for the
empty verifier — whose stand-in digest `"#"` does equal the stored
challenge of `pkceEmptyStore` — the source's falsy check rejects it with
`Code verifier required` instead of succeeding. -/
theorem pkce_verification_counterexample :
    ((fun v => v ++ "#") "" = "#") ∧
    (validateAuthorizationCode (fun v => v ++ "#") 5 pkceEmptyStore "codeE"
      "client1" "https://cb.example" (some "")).1.valid = false ∧
    (validateAuthorizationCode (fun v => v ++ "#") 5 pkceEmptyStore "codeE"
      "client1" "https://cb.example" (some "")).1.error =
      some "Code verifier required" := by
  decide

/-- C2 amended: for a stored code with a non-empty challenge `c` and
method `S256`, redemption with otherwise-correct parameters and a
*non-empty* verifier succeeds exactly when its digest equals `c`, and
fails with `Invalid code verifier` when the digest differs; a missing
verifier and an empty verifier both fail with `Code verifier required`
(the source's falsy check), never succeeding regardless of `c`. -/
theorem pkce_verification
    (hash : String → String) (now : Nat) (s : Store)
    (code clientId redirectUri : String) (row : AuthCodeRow) (c : String)
    (hlook : lookupRow s.authCodes code = some row)
    (hexp : ¬ now > row.expiresAt)
    (hcid : row.clientId = clientId)
    (huri : row.redirectUri = redirectUri)
    (hch : row.codeChallenge = some c) (hcne : c ≠ "")
    (hm : row.codeChallengeMethod = some "S256") :
    (∀ v : String, v ≠ "" →
      ((validateAuthorizationCode hash now s code clientId redirectUri
          (some v)).1.valid = true ↔ hash v = c) ∧
      (hash v ≠ c →
        (validateAuthorizationCode hash now s code clientId redirectUri
          (some v)).1.error = some "Invalid code verifier")) ∧
    ((validateAuthorizationCode hash now s code clientId redirectUri
        none).1.valid = false ∧
     (validateAuthorizationCode hash now s code clientId redirectUri
        none).1.error = some "Code verifier required") ∧
    ((validateAuthorizationCode hash now s code clientId redirectUri
        (some "")).1.valid = false ∧
     (validateAuthorizationCode hash now s code clientId redirectUri
        (some "")).1.error = some "Code verifier required") := by
  have hact : pkceActive row = true := by
    simp [pkceActive, jsTruthy, hch, hcne, hm]
  have hgd : row.codeChallenge.getD "" = c := by rw [hch]; rfl
  refine ⟨?_, ?_, ?_⟩
  · intro v hve
    by_cases hv : hash v = c
    · have hs := validateAuthCode_success hash now s code clientId
        redirectUri (some v) row hlook hexp hcid huri
        (by simp [pkcePasses, hact, hve, hgd, hv])
      rw [hs]
      exact ⟨by simp [hv], fun hvc => absurd hv hvc⟩
    · have hm2 := validateAuthCode_pkce_mismatch hash now s code clientId
        redirectUri v row hlook hexp hcid huri hact hve
        (by rw [hgd]; exact hv)
      rw [hm2]
      exact ⟨by simp [hv], fun _ => rfl⟩
  · rw [validateAuthCode_verifier_required hash now s code clientId
      redirectUri none row hlook hexp hcid huri hact rfl]
    exact ⟨rfl, rfl⟩
  · rw [validateAuthCode_verifier_required hash now s code clientId
      redirectUri (some "") row hlook hexp hcid huri hact (by decide)]
    exact ⟨rfl, rfl⟩

/-- Witness for C2 (amended) on a concrete store and stand-in digest. -/
theorem pkce_verification_witness :
    (validateAuthorizationCode (fun v => v ++ "#") 5 pkceStore "codeP"
      "client1" "https://cb.example" (some "ver")).1.valid = true ∧
    (validateAuthorizationCode (fun v => v ++ "#") 5 pkceStore "codeP"
      "client1" "https://cb.example"
      (some "bad")).1.error = some "Invalid code verifier" ∧
    (validateAuthorizationCode (fun v => v ++ "#") 5 pkceStore "codeP"
      "client1" "https://cb.example"
      none).1.error = some "Code verifier required" ∧
    (validateAuthorizationCode (fun v => v ++ "#") 5 pkceStore "codeP"
      "client1" "https://cb.example"
      (some "")).1.error = some "Code verifier required" := by
  have h := pkce_verification (fun v => v ++ "#") 5 pkceStore "codeP"
    "client1" "https://cb.example"
    { clientId := "client1", redirectUri := "https://cb.example",
      codeChallenge := some "ver#", codeChallengeMethod := some "S256",
      expiresAt := 1000, scope := some "read", resource := none }
    "ver#" rfl (by decide) rfl rfl rfl (by decide) rfl
  exact ⟨(h.1 "ver" (by decide)).1.mpr rfl,
    (h.1 "bad" (by decide)).2 (by decide), h.2.1.2, h.2.2.2⟩

/-- C3 counterexample: the claim requires failure with `ExpiredGrant` at
any time greater than *or equal to* the stored expiry, but redeeming
`boundaryStore`'s code at exactly its expiry instant 1000 succeeds. -/
theorem authCode_expiry_boundary_counterexample :
    (validateAuthorizationCode (fun v => v) 1000 boundaryStore "codeT"
      "client1" "https://cb.example" none).1.valid = true ∧
    (validateAuthorizationCode (fun v => v) 1000 boundaryStore "codeT"
      "client1" "https://cb.example"
      none).1.error ≠ some "Authorization code expired" := by decide

/-- C3 amended: with otherwise-correct parameters, redemption succeeds at
any current time less than or equal to the stored expiry (in particular at
every time strictly before it), and at any time strictly greater than the
expiry it fails with `Authorization code expired` and deletes the row. -/
theorem authCode_expiry_boundary
    (hash : String → String) (now : Nat) (s : Store)
    (code clientId redirectUri : String) (codeVerifier : Option String)
    (row : AuthCodeRow)
    (hlook : lookupRow s.authCodes code = some row)
    (hcid : row.clientId = clientId)
    (huri : row.redirectUri = redirectUri)
    (hpk : pkcePasses hash row codeVerifier = true) :
    (now ≤ row.expiresAt →
      (validateAuthorizationCode hash now s code clientId redirectUri
        codeVerifier).1.valid = true) ∧
    (now > row.expiresAt →
      (validateAuthorizationCode hash now s code clientId redirectUri
          codeVerifier).1.error = some "Authorization code expired" ∧
      lookupRow (validateAuthorizationCode hash now s code clientId
        redirectUri codeVerifier).2.authCodes code = none) := by
  constructor
  · intro hle
    rw [validateAuthCode_success hash now s code clientId redirectUri
      codeVerifier row hlook (by omega) hcid huri hpk]
  · intro hgt
    rw [validateAuthCode_expired hash now s code clientId redirectUri
      codeVerifier row hlook hgt]
    exact ⟨rfl, lookupRow_deleteRow_self _ _⟩

/-- Witness for C3 (amended) at the boundary store: redemption at exactly
the expiry 1000 succeeds, and at 1001 it reports expiry and deletes the
row. -/
theorem authCode_expiry_boundary_witness :
    (validateAuthorizationCode (fun v => v) 1000 boundaryStore "codeT"
      "client1" "https://cb.example" none).1.valid = true ∧
    (validateAuthorizationCode (fun v => v) 1001 boundaryStore "codeT"
      "client1" "https://cb.example"
      none).1.error = some "Authorization code expired" ∧
    lookupRow (validateAuthorizationCode (fun v => v) 1001 boundaryStore
      "codeT" "client1" "https://cb.example"
      none).2.authCodes "codeT" = none := by
  have h1000 := authCode_expiry_boundary (fun v => v) 1000 boundaryStore
    "codeT" "client1" "https://cb.example" none
    { clientId := "client1", redirectUri := "https://cb.example",
      codeChallenge := none, codeChallengeMethod := none,
      expiresAt := 1000, scope := none, resource := none }
    rfl rfl rfl (by decide)
  have h1001 := authCode_expiry_boundary (fun v => v) 1001 boundaryStore
    "codeT" "client1" "https://cb.example" none
    { clientId := "client1", redirectUri := "https://cb.example",
      codeChallenge := none, codeChallengeMethod := none,
      expiresAt := 1000, scope := none, resource := none }
    rfl rfl rfl (by decide)
  exact ⟨h1000.1 (by decide), (h1001.2 (by decide)).1, (h1001.2 (by decide)).2⟩

/-- C4 counterexample: with the environment unset, the fallback pair is
exactly (`chatgpt-mcp-client`, `chatgpt-mcp-secret-key-2024`), yet when a
registered row reuses that id with a different secret the fallback pair
fails validation, because the registered row is checked first and
short-circuits the fallback. -/
theorem validateClientCredentials_counterexample :
    getOAuthCredentials none none =
      ("chatgpt-mcp-client", "chatgpt-mcp-secret-key-2024") ∧
    (getClient rotatedFallbackStore "chatgpt-mcp-client").isSome = true ∧
    validateClientCredentials none none rotatedFallbackStore
      "chatgpt-mcp-client" "chatgpt-mcp-secret-key-2024" = false := by
  decide

/-- C4 amended: `validateClientCredentials` returns true iff a registered
row with the id exists and its stored secret equals the supplied secret,
or no registered row with the id exists and the pair equals the configured
fallback credentials.  The fallback is never consulted once a row with
that id is registered. -/
theorem validateClientCredentials_spec
    (envClientId envClientSecret : Option String) (s : Store)
    (clientId clientSecret : String) :
    validateClientCredentials envClientId envClientSecret s clientId
        clientSecret = true ↔
      ((∃ c, getClient s clientId = some c ∧
          c.client_secret = clientSecret) ∨
       (getClient s clientId = none ∧
        clientId = (getOAuthCredentials envClientId envClientSecret).1 ∧
        clientSecret = (getOAuthCredentials envClientId envClientSecret).2)) := by
  unfold validateClientCredentials
  cases hg : getClient s clientId with
  | none => simp [hg]
  | some c => simp [hg]

/-- Witness for C4 (amended): on the empty registry the fallback pair
validates. -/
theorem validateClientCredentials_spec_witness :
    validateClientCredentials none none emptyStore "chatgpt-mcp-client"
      "chatgpt-mcp-secret-key-2024" = true :=
  (validateClientCredentials_spec none none emptyStore "chatgpt-mcp-client"
    "chatgpt-mcp-secret-key-2024").mpr (Or.inr ⟨rfl, rfl, rfl⟩)

/-- C5 counterexample: a storage failure inside `validateAccessToken` is
not re-raised: the catch block converts it into the domain result `false`,
so the expiry sweep is not the sole exception to re-raising. -/
theorem storage_error_propagation_counterexample :
    validateAccessTokenDB true 0 emptyStore "tok" =
      .ok (false, emptyStore) ∧
    validateAccessTokenDB true 0 emptyStore "tok" ≠ .thrown := by
  decide

/-- C5 amended: registration, client lookup, code issuance, code
redemption, token-pair minting and revocation re-raise storage failures;
`validateAccessToken` converts them to `false`, `validateRefreshToken`
converts them to an invalid result carrying `Database error`, and the
expiry sweep suppresses them — including the opportunistic sweep inside
`generateTokenPair`, whose failure does not fail the mint. -/
theorem storage_error_propagation
    (generatedId generatedSecret : String) (createdAt : Nat)
    (request : ClientRegistrationRequest) (s : Store)
    (clientId redirectUri token code accessToken refreshToken : String)
    (codeChallenge codeChallengeMethod scope resource
      codeVerifier : Option String)
    (hash : String → String) (now : Nat) :
    registerClientDB true generatedId generatedSecret createdAt request s =
      .thrown ∧
    getClientDB true s clientId = .thrown ∧
    generateAuthorizationCodeDB true now code clientId redirectUri
      codeChallenge codeChallengeMethod scope resource s = .thrown ∧
    validateAuthorizationCodeDB true hash now s code clientId redirectUri
      codeVerifier = .thrown ∧
    generateTokenPairDB true false now accessToken refreshToken clientId
      scope resource s = .thrown ∧
    revokeRefreshTokenDB true s token = .thrown ∧
    validateAccessTokenDB true now s token = .ok (false, s) ∧
    validateRefreshTokenDB true now s token =
      .ok ({ valid := false, clientId := none, scope := none,
             resource := none, error := some "Database error" }, s) ∧
    cleanupExpiredTokensDB true now s = .ok s ∧
    generateTokenPairDB false true now accessToken refreshToken clientId
      scope resource s ≠ .thrown := by
  refine ⟨rfl, rfl, rfl, rfl, rfl, rfl, rfl, rfl, rfl, ?_⟩
  intro h
  simp [generateTokenPairDB] at h

/-- C6: revoking the refresh token of a freshly minted pair deletes both
rows, so the access token no longer validates and the refresh token fails
with `Invalid refresh token`. -/
theorem paired_revocation
    (now now2 now3 : Nat) (s : Store)
    (accessToken refreshToken clientId : String)
    (scope resource : Option String)
    (ha : accessToken ≠ "") :
    (validateAccessToken now2
      (revokeRefreshToken
        (generateTokenPair now accessToken refreshToken clientId scope
          resource s).2 refreshToken) accessToken).1 = false ∧
    (validateRefreshToken now3
      (revokeRefreshToken
        (generateTokenPair now accessToken refreshToken clientId scope
          resource s).2 refreshToken) refreshToken).1.valid = false ∧
    (validateRefreshToken now3
      (revokeRefreshToken
        (generateTokenPair now accessToken refreshToken clientId scope
          resource s).2 refreshToken) refreshToken).1.error =
      some "Invalid refresh token" := by
  have hnltA : ¬ (now + TOKEN_EXPIRY_MS < now) := by omega
  have hnltR : ¬ (now + REFRESH_TOKEN_EXPIRY_MS < now) := by omega
  have hGacc : (generateTokenPair now accessToken refreshToken clientId
      scope resource s).2.accessTokens =
      (accessToken,
       { clientId := clientId, expiresAt := now + TOKEN_EXPIRY_MS,
         scope := jsOrNull scope, resource := jsOrNull resource,
         link := some refreshToken }) ::
        s.accessTokens.filter (fun p => !(p.2.expiresAt < now)) := by
    simp [generateTokenPair, cleanupExpiredTokens, List.filter_cons, hnltA]
  have hGref : (generateTokenPair now accessToken refreshToken clientId
      scope resource s).2.refreshTokens =
      (refreshToken,
       { clientId := clientId, expiresAt := now + REFRESH_TOKEN_EXPIRY_MS,
         scope := jsOrNull scope, resource := jsOrNull resource,
         link := some accessToken }) ::
        s.refreshTokens.filter (fun p => !(p.2.expiresAt < now)) := by
    simp [generateTokenPair, cleanupExpiredTokens, List.filter_cons, hnltR]
  have hlookR : lookupRow (generateTokenPair now accessToken refreshToken
      clientId scope resource s).2.refreshTokens refreshToken = some
      { clientId := clientId, expiresAt := now + REFRESH_TOKEN_EXPIRY_MS,
        scope := jsOrNull scope, resource := jsOrNull resource,
        link := some accessToken } := by
    rw [hGref]
    exact lookupRow_cons_self _ _ _
  have hrev : revokeRefreshToken (generateTokenPair now accessToken
      refreshToken clientId scope resource s).2 refreshToken =
      { clients := (generateTokenPair now accessToken refreshToken clientId
          scope resource s).2.clients,
        authCodes := (generateTokenPair now accessToken refreshToken
          clientId scope resource s).2.authCodes,
        accessTokens := deleteRow (generateTokenPair now accessToken
          refreshToken clientId scope resource s).2.accessTokens
          accessToken,
        refreshTokens := deleteRow (generateTokenPair now accessToken
          refreshToken clientId scope resource s).2.refreshTokens
          refreshToken } := by
    unfold revokeRefreshToken
    rw [hlookR]
    simp [jsTruthy, ha]
  have hvalA : lookupRow (revokeRefreshToken (generateTokenPair now
      accessToken refreshToken clientId scope resource s).2
      refreshToken).accessTokens accessToken = none := by
    rw [hrev]
    exact lookupRow_deleteRow_self _ _
  have hvalR : lookupRow (revokeRefreshToken (generateTokenPair now
      accessToken refreshToken clientId scope resource s).2
      refreshToken).refreshTokens refreshToken = none := by
    rw [hrev]
    exact lookupRow_deleteRow_self _ _
  refine ⟨?_, ?_, ?_⟩
  · rw [validateAccessToken_absent now2 _ accessToken hvalA]
  · rw [validateRefreshToken_absent now3 _ refreshToken hvalR]
  · rw [validateRefreshToken_absent now3 _ refreshToken hvalR]

/-- Witness for C6 on a concrete mint-then-revoke run. -/
theorem paired_revocation_witness :
    (validateAccessToken 7
      (revokeRefreshToken
        (generateTokenPair 0 "at1" "rt1" "clientZ" none none
          emptyStore).2 "rt1") "at1").1 = false ∧
    (validateRefreshToken 7
      (revokeRefreshToken
        (generateTokenPair 0 "at1" "rt1" "clientZ" none none
          emptyStore).2 "rt1") "rt1").1.valid = false ∧
    (validateRefreshToken 7
      (revokeRefreshToken
        (generateTokenPair 0 "at1" "rt1" "clientZ" none none
          emptyStore).2 "rt1") "rt1").1.error =
      some "Invalid refresh token" :=
  paired_revocation 0 7 7 emptyStore "at1" "rt1" "clientZ" none none
    (by decide)

/-- C7: the expiry sweep keeps exactly the rows whose expiry is not before
`now` in all three expiring tables, leaves the client table and every
surviving row unchanged (a live code is still found by lookup), and is
idempotent. -/
theorem expiry_sweep_exact (now : Nat) (s : Store) :
    (∀ p : String × AuthCodeRow,
      p ∈ (cleanupExpiredTokens now s).authCodes ↔
        p ∈ s.authCodes ∧ ¬ (p.2.expiresAt < now)) ∧
    (∀ p : String × TokenRow,
      p ∈ (cleanupExpiredTokens now s).accessTokens ↔
        p ∈ s.accessTokens ∧ ¬ (p.2.expiresAt < now)) ∧
    (∀ p : String × TokenRow,
      p ∈ (cleanupExpiredTokens now s).refreshTokens ↔
        p ∈ s.refreshTokens ∧ ¬ (p.2.expiresAt < now)) ∧
    (cleanupExpiredTokens now s).clients = s.clients ∧
    (∀ code row, lookupRow s.authCodes code = some row →
      ¬ (row.expiresAt < now) →
      lookupRow (cleanupExpiredTokens now s).authCodes code = some row) ∧
    cleanupExpiredTokens now (cleanupExpiredTokens now s) =
      cleanupExpiredTokens now s := by
  refine ⟨?_, ?_, ?_, rfl, ?_, ?_⟩
  · intro p
    simp [cleanupExpiredTokens, List.mem_filter]
  · intro p
    simp [cleanupExpiredTokens, List.mem_filter]
  · intro p
    simp [cleanupExpiredTokens, List.mem_filter]
  · intro code row h hn
    exact lookupRow_filter _ _ _ _ h (by simp [hn])
  · cases s
    simp [cleanupExpiredTokens, List.filter_filter]

/-- Witness for C7 on a store with one expired and one live code. -/
theorem expiry_sweep_exact_witness :
    lookupRow (cleanupExpiredTokens 1000 sweepStore).authCodes "codeNew" =
      some { clientId := "client1", redirectUri := "https://cb.example",
             codeChallenge := none, codeChallengeMethod := none,
             expiresAt := 4600000, scope := none, resource := none } ∧
    ¬ (("codeOld",
        ({ clientId := "client1", redirectUri := "https://cb.example",
           codeChallenge := none, codeChallengeMethod := none,
           expiresAt := 999, scope := none,
           resource := none } : AuthCodeRow)) ∈
        (cleanupExpiredTokens 1000 sweepStore).authCodes) ∧
    cleanupExpiredTokens 1000 (cleanupExpiredTokens 1000 sweepStore) =
      cleanupExpiredTokens 1000 sweepStore := by
  have h := expiry_sweep_exact 1000 sweepStore
  refine ⟨h.2.2.2.2.1 "codeNew" _ rfl (by decide), ?_, h.2.2.2.2.2⟩
  intro hmem
  exact absurd ((h.1 _).mp hmem).2 (by decide)

/-- C8: registering with every optional field omitted returns the generated
id and secret, the default redirect-URI list, grant types
`["authorization_code"]`, response types `["code"]`, auth method
`client_secret_post`, and a never-expiring secret marker `0`. -/
theorem registerClient_defaults (generatedId generatedSecret : String)
    (createdAt : Nat) (s : Store) :
    (registerClient generatedId generatedSecret createdAt
      { client_name := none, redirect_uris := none, grant_types := none,
        response_types := none, token_endpoint_auth_method := none,
        scope := none } s).1.client_id = generatedId ∧
    (registerClient generatedId generatedSecret createdAt
      { client_name := none, redirect_uris := none, grant_types := none,
        response_types := none, token_endpoint_auth_method := none,
        scope := none } s).1.client_secret = generatedSecret ∧
    (registerClient generatedId generatedSecret createdAt
      { client_name := none, redirect_uris := none, grant_types := none,
        response_types := none, token_endpoint_auth_method := none,
        scope := none } s).1.redirect_uris =
      ["https://chatgpt.com/aip/g-*/oauth/callback"] ∧
    (registerClient generatedId generatedSecret createdAt
      { client_name := none, redirect_uris := none, grant_types := none,
        response_types := none, token_endpoint_auth_method := none,
        scope := none } s).1.grant_types = ["authorization_code"] ∧
    (registerClient generatedId generatedSecret createdAt
      { client_name := none, redirect_uris := none, grant_types := none,
        response_types := none, token_endpoint_auth_method := none,
        scope := none } s).1.response_types = ["code"] ∧
    (registerClient generatedId generatedSecret createdAt
      { client_name := none, redirect_uris := none, grant_types := none,
        response_types := none, token_endpoint_auth_method := none,
        scope := none } s).1.token_endpoint_auth_method =
      "client_secret_post" ∧
    (registerClient generatedId generatedSecret createdAt
      { client_name := none, redirect_uris := none, grant_types := none,
        response_types := none, token_endpoint_auth_method := none,
        scope := none } s).1.client_secret_expires_at = 0 :=
  ⟨rfl, rfl, rfl, rfl, rfl, rfl, rfl⟩

/-- C9: a redemption of a stored, non-expired code that fails (for any of
the non-expiry reasons: client mismatch, redirect mismatch, missing
verifier, wrong verifier) leaves the store untouched, and a later
redemption of the same store with the code's own client, redirect URI and
a PKCE-passing verifier succeeds. -/
theorem failed_redemption_preserves_code
    (hash : String → String) (now : Nat) (s : Store)
    (code clientId redirectUri : String) (codeVerifier : Option String)
    (row : AuthCodeRow)
    (hlook : lookupRow s.authCodes code = some row)
    (hexp : ¬ now > row.expiresAt)
    (hfail : (validateAuthorizationCode hash now s code clientId
      redirectUri codeVerifier).1.valid = false) :
    (validateAuthorizationCode hash now s code clientId redirectUri
      codeVerifier).2 = s ∧
    (∀ v', pkcePasses hash row v' = true →
      (validateAuthorizationCode hash now s code row.clientId
        row.redirectUri v').1.valid = true) := by
  constructor
  · by_cases h1 : row.clientId ≠ clientId
    · rw [validateAuthCode_client_mismatch hash now s code clientId
        redirectUri codeVerifier row hlook hexp h1]
    · rw [not_not] at h1
      by_cases h2 : row.redirectUri ≠ redirectUri
      · rw [validateAuthCode_redirect_mismatch hash now s code clientId
          redirectUri codeVerifier row hlook hexp h1 h2]
      · rw [not_not] at h2
        by_cases h3 : pkceActive row = true
        · cases codeVerifier with
          | none =>
            rw [validateAuthCode_verifier_required hash now s code clientId
              redirectUri none row hlook hexp h1 h2 h3 rfl]
          | some v =>
            by_cases hve : v = ""
            · subst hve
              rw [validateAuthCode_verifier_required hash now s code
                clientId redirectUri (some "") row hlook hexp h1 h2 h3
                (by decide)]
            · by_cases h4 : hash v = row.codeChallenge.getD ""
              · rw [validateAuthCode_success hash now s code clientId
                  redirectUri (some v) row hlook hexp h1 h2
                  (by simp [pkcePasses, h3, hve, h4])] at hfail
                simp at hfail
              · rw [validateAuthCode_pkce_mismatch hash now s code clientId
                  redirectUri v row hlook hexp h1 h2 h3 hve h4]
        · rw [Bool.not_eq_true] at h3
          rw [validateAuthCode_success hash now s code clientId
            redirectUri codeVerifier row hlook hexp h1 h2
            (by simp [pkcePasses, h3])] at hfail
          simp at hfail
  · intro v' hv'
    rw [validateAuthCode_success hash now s code row.clientId
      row.redirectUri v' row hlook hexp rfl rfl hv']

/-- Witness for C9: a client-mismatched redemption against `pkceStore`
leaves the store unchanged and the code then redeems with the right
parameters. -/
theorem failed_redemption_preserves_code_witness :
    (validateAuthorizationCode (fun v => v ++ "#") 5 pkceStore "codeP"
      "otherClient" "https://cb.example" (some "ver")).2 = pkceStore ∧
    (validateAuthorizationCode (fun v => v ++ "#") 5 pkceStore "codeP"
      "client1" "https://cb.example" (some "ver")).1.valid = true := by
  have h := failed_redemption_preserves_code (fun v => v ++ "#") 5
    pkceStore "codeP" "otherClient" "https://cb.example" (some "ver")
    { clientId := "client1", redirectUri := "https://cb.example",
      codeChallenge := some "ver#", codeChallengeMethod := some "S256",
      expiresAt := 1000, scope := some "read", resource := none }
    rfl (by decide) (by decide)
  exact ⟨h.1, h.2 (some "ver") (by decide)⟩

end McpOAuth
